import Mathlib

/-!
Verification of the Discord/Telegram ticket-bridge bot (`src/bot.py`).

This file is a shallow embedding of the pure core of the program:

* Python string helpers (`str.strip`, `str.lower`, `str.split`, truthiness)
  modelled on `String`/`List Char`.  `strip`/`lower` are modelled for the
  ASCII range (the repository only applies them to literal tokens and user
  text where the claims do not depend on non-ASCII case folding).
* the button-tag mini-language compiler `parse_button_tags`,
* the template normalizer `normalize_saved_post` together with the dataclass
  serializer `asdict` (as used by the stores when persisting),
* the notification target resolver `BridgeBot._notification_targets`,
* the digest upsert engine `BridgeBot._update_ticket_digest`,
* the close path `CloseTicketButton.close_ticket` / `BridgeBot.close_ticket`,
* the renderer pieces `hex_midpoint`, `embeds_from_post`,
  `TicketOpenView.__init__` and the panel/static decision of `publish_post`.

External collaborators (Discord/Telegram network calls, the filesystem) are
modelled as data: message sends become events, the message ids returned by
the notification platform become a supply function, and the archive
collector's output becomes a list of artifact names.
-/

/-! ### Python string primitives -/

/-- Whitespace stripped by Python `str.strip()` (ASCII part: space, tab,
newline, carriage return, vertical tab, form feed). -/
def pyIsSpace (c : Char) : Bool :=
  c = ' ' || c = '\t' || c = '\n' || c = '\r' || c = '\x0b' || c = '\x0c'

/-- Python `str.strip()` on a character list. -/
def pyStripL (s : List Char) : List Char :=
  ((s.dropWhile pyIsSpace).reverse.dropWhile pyIsSpace).reverse

/-- Python `str.strip()`. -/
def pyStrip (s : String) : String :=
  ⟨pyStripL s.data⟩

/-- Python `str.lower()` (ASCII case folding). -/
def pyLower (s : String) : String :=
  ⟨s.data.map Char.toLower⟩

/-- Python `str.split("|")`: splits on every pipe, keeping empty pieces;
splitting the empty string yields one empty piece. -/
def pySplitPipe : List Char → List (List Char)
  | [] => [[]]
  | '|' :: cs => [] :: pySplitPipe cs
  | c :: cs =>
    match pySplitPipe cs with
    | [] => [[c]]
    | h :: t => (c :: h) :: t

/-- Python truthiness of an optional string (`None` and `""` are falsy). -/
def pyTruthy : Option String → Bool
  | some s => s ≠ ""
  | none => false

/-! ### Data model (`@dataclass` definitions of `bot.py`) -/

/-- Dataclass `ExtraBlock`. -/
structure ExtraBlock where
  title : String := ""
  description : String := ""
  color_hex : String := "2ECC71"
  image_url : Option String := none
  image_position : String := "bottom"
deriving DecidableEq, Repr

/-- Dataclass `PanelButton`. -/
structure PanelButton where
  label : String := "Button"
  emoji : String := ""
  style : String := "secondary"
  action : String := "none"
  url : Option String := none
  row : Int := 0
deriving DecidableEq, Repr

/-- Dataclass `TicketBinding`.  The `digest_message_ids` dict is keyed in the
source by `str(chat_id)`; `str` is injective on integers, so the key is
modelled by the chat id itself. -/
structure TicketBinding where
  ticket_channel_id : Int
  opener_discord_id : Int
  ticket_type : String
  digest_message_ids : List (Int × Int) := []
deriving DecidableEq, Repr

/-- Dataclass `SavedPost` with its field defaults. -/
structure SavedPost where
  name : String
  channel_id : Int
  title : String
  description : String
  color_hex : String := "2ECC71"
  image_url : Option String := none
  image_position : String := "bottom"
  last_message_id : Option Int := none
  is_ticket_panel : Bool := false
  order_label : String := "ORDER"
  order_emoji : String := "🧾"
  order_style : String := "success"
  support_label : String := "SUPPORT"
  support_emoji : String := "🛟"
  support_style : String := "primary"
  auto_gradient : Bool := false
  gradient_start_hex : String := "2ECC71"
  gradient_end_hex : String := "5865F2"
  auto_order_message : String := "Спасибо за заказ! Опишите задачу и бюджет."
  auto_support_message : String := "Спасибо за обращение в саппорт! Опишите проблему подробно."
  panel_buttons : List PanelButton := []
  extra_blocks : List ExtraBlock := []
deriving DecidableEq, Repr

/-! ### Python dict as an association list

Python dicts keep one value per key; update replaces in place, a fresh key is
appended at the end (insertion order).  `lookupA`/`insertA`/`removeA` model
`d.get`, `d[k] = v` and `d.pop(k, None)`. -/

/-- Dict lookup `d.get(k)`. -/
def lookupA {α : Type} (m : List (Int × α)) (k : Int) : Option α :=
  match m with
  | [] => none
  | p :: t => if p.1 = k then some p.2 else lookupA t k

/-- Dict update `d[k] = v`. -/
def insertA {α : Type} (m : List (Int × α)) (k : Int) (v : α) : List (Int × α) :=
  match m with
  | [] => [(k, v)]
  | p :: t => if p.1 = k then (k, v) :: t else p :: insertA t k v

/-- Dict removal `d.pop(k, None)`. -/
def removeA {α : Type} (m : List (Int × α)) (k : Int) : List (Int × α) :=
  m.filter (fun p => !(p.1 == k))

/-! ### Button styles -/

/-- Source: `SUPPORTED_STYLES` membership after `strip().lower()`; anything
else degrades to `"secondary"` (`normalize_style_name`). -/
def normalize_style_name (name : String) : String :=
  let nm := pyLower (pyStrip name)
  if nm = "primary" ∨ nm = "secondary" ∨ nm = "success" ∨ nm = "danger" then nm
  else "secondary"

/-- Discord `ButtonStyle` values used by the bot. -/
inductive ButtonStyle where
  | primary
  | secondary
  | success
  | danger
  | link
deriving DecidableEq, Repr

/-- Source: `style_from_name` — mapping table with `"secondary"` fallback. -/
def style_from_name (name : String) : ButtonStyle :=
  let nm := normalize_style_name name
  if nm = "primary" then .primary
  else if nm = "secondary" then .secondary
  else if nm = "success" then .success
  else if nm = "danger" then .danger
  else .secondary

/-! ### Button-tag compiler (`parse_button_tags`) -/

/-- The characters of the literal tag `{{btn:BODY}}` (the braces are built
from character literals). -/
def tagChars (body : List Char) : List Char :=
  '{' :: '{' :: 'b' :: 't' :: 'n' :: ':' :: (body ++ ['}', '}'])

/-- One attempt of the regex `\x7b\x7bbtn:([^\x7b\x7d]+)\x7d\x7d` at the head
of the input: the literal `{{btn:`, then a nonempty run of non-brace
characters (the captured group), then `}}`.  Returns the captured body and
the remaining input after the match. -/
def tagBody? (s : List Char) : Option (List Char × List Char) :=
  match s with
  | c1 :: c2 :: c3 :: c4 :: c5 :: c6 :: rest =>
    if c1 = '{' ∧ c2 = '{' ∧ c3 = 'b' ∧ c4 = 't' ∧ c5 = 'n' ∧ c6 = ':' then
      if (rest.takeWhile fun c => !(c = '{' || c = '}')) ≠ [] ∧
          (rest.dropWhile fun c => !(c = '{' || c = '}')).take 2 = ['}', '}'] then
        some (rest.takeWhile fun c => !(c = '{' || c = '}'),
          (rest.dropWhile fun c => !(c = '{' || c = '}')).drop 2)
      else none
    else none
  | _ => none

/-- Source: the `action_aliases` dict of `parse_button_tags`
(`aliases.get(a, a)`). -/
def aliasAction (a : String) : String :=
  if a = "order" then "order"
  else if a = "ticket" then "order"
  else if a = "заказ" then "order"
  else if a = "support" then "support"
  else if a = "help" then "support"
  else if a = "саппорт" then "support"
  else if a = "поддержка" then "support"
  else if a = "url" then "url"
  else if a = "link" then "url"
  else if a = "ссылка" then "url"
  else a

/-- Source: `_resolve_row` — `"bottom"` is row 4, `"row<N>"` clamps N to
`[0,4]`, anything else keeps the caller's base row. -/
def resolveRow (base_row : Int) (pos : String) : Int :=
  let p := pyLower (pyStrip (if pos = "" then "inline" else pos))
  if p = "bottom" then 4
  else
    match p.data with
    | 'r' :: 'o' :: 'w' :: rest =>
      let n := pyStripL rest
      if n ≠ [] ∧ n.all Char.isDigit then
        max 0 (min 4 (Int.ofNat (n.foldl (fun a c => 10 * a + (c.toNat - 48)) 0)))
      else base_row
    | _ => base_row

/-- The stripped, pipe-separated fields of a captured tag body:
`parts = [x.strip() for x in match.group(1).strip().split("|")]`. -/
def tagParts (body : List Char) : List String :=
  (pySplitPipe (pyStripL body)).map fun l => pyStrip ⟨l⟩

/-- Source: the `_repl` closure of `parse_button_tags`, on the captured group
`body`.  Returns the replacement text and the extracted button, if any; a
malformed tag returns its own text (`match.group(0)`) verbatim. -/
def tagRepl (base_row : Int) (body : List Char) : List Char × Option PanelButton :=
  let parts := tagParts body
  if parts.length < 2 then (tagChars body, none)
  else
    let p0 := parts.getD 0 ""
    let label := if p0 = "" then "Button" else p0
    let action_raw := pyLower (parts.getD 1 "")
    let action := aliasAction action_raw
    let style :=
      if 2 < parts.length ∧ parts.getD 2 "" ≠ "" then normalize_style_name (parts.getD 2 "")
      else "secondary"
    let pos := if 3 < parts.length then parts.getD 3 "" else "inline"
    let emoji := if 4 < parts.length then parts.getD 4 "" else ""
    let extra := if 5 < parts.length then parts.getD 5 "" else ""
    let row := resolveRow base_row pos
    let labelText := ((if emoji ≠ "" then emoji ++ " " else "") ++ label).data
    if action = "url" ∧ extra = "" then (labelText, none)
    else if ¬(action = "order" ∨ action = "support" ∨ action = "url") then (tagChars body, none)
    else
      let url : Option String := if action = "url" then some extra else none
      (labelText, some { label := label, emoji := emoji, style := style,
                         action := action, url := url, row := row })

/-- Left-to-right, non-overlapping scan of `re.sub` with the button-tag
pattern.  Fuel-indexed (the fuel is the input length; every step consumes at
least one character). -/
def scanTagsAux (base_row : Int) : Nat → List Char → List Char × List PanelButton
  | _, [] => ([], [])
  | 0, s => (s, [])
  | Nat.succ n, c :: cs =>
    match tagBody? (c :: cs) with
    | some (body, rest) =>
      let rb := tagRepl base_row body
      let tail := scanTagsAux base_row n rest
      (rb.1 ++ tail.1,
        match rb.2 with
        | some b => b :: tail.2
        | none => tail.2)
    | none =>
      let tail := scanTagsAux base_row n cs
      (c :: tail.1, tail.2)

/-- Source: `parse_button_tags(text, default_row)` — returns the cleaned text
and the ordered list of extracted buttons. -/
def parse_button_tags (text : String) (default_row : Int) : String × List PanelButton :=
  if text = "" then (text, [])
  else
    let base_row := max 0 (min 4 default_row)
    let r := scanTagsAux base_row text.data.length text.data
    (⟨r.1⟩, r.2)

/-- Source: `materialize_post_for_send` — compiles the description's tags
(default row 0) and appends the tag-derived buttons after the structured
ones. -/
def materialize_post_for_send (post : SavedPost) : SavedPost :=
  let r := parse_button_tags post.description 0
  { post with description := r.1, panel_buttons := post.panel_buttons ++ r.2 }

/-- The condition of the claim about malformed tags, computed on a captured
tag body exactly as `_repl` computes its fields: fewer than two
pipe-separated fields, or an `ACTION` that does not resolve through the alias
table to `order`, `support` or `url`. -/
def bodyMalformed (body : List Char) : Bool :=
  let parts := tagParts body
  if parts.length < 2 then true
  else
    let a := aliasAction (pyLower (parts.getD 1 ""))
    !(a == "order" || a == "support" || a == "url")

/-- Every tag the scanner matches in the input is malformed (same scan and
fuel discipline as `scanTagsAux`). -/
def allTagsMalformed : Nat → List Char → Bool
  | _, [] => true
  | 0, _ => true
  | Nat.succ n, c :: cs =>
    match tagBody? (c :: cs) with
    | some (body, rest) => bodyMalformed body && allTagsMalformed n rest
    | none => allTagsMalformed n cs

/-! ### Template schema normalizer (`normalize_saved_post`) and `asdict`

A raw template document is a Python dict.  The normalizer drops unknown keys
(`clean = ... if k in allowed`), so the embedding represents a raw document
by the known keys, each an `Option` (absent / present).  Field values carry
the Python types the stores actually produce (`asdict` output and the JSON
documents written by the bot); for fields the source passes through `str()`,
a present value that may be Python `None` is modelled as `Option (Option _)`
and `str(None)` evaluates to the string `"None"`. -/

/-- Raw panel-button dict (the keys read by `normalize_saved_post`). -/
structure RawButton where
  label : Option String := none
  emoji : Option String := none
  style : Option String := none
  action : Option String := none
  url : Option (Option String) := none
  row : Option Int := none
deriving DecidableEq, Repr

/-- Raw extra-block dict (the keys kept by the `ExtraBlock` filter). -/
structure RawBlock where
  title : Option String := none
  description : Option String := none
  color_hex : Option String := none
  image_url : Option (Option String) := none
  image_position : Option String := none
deriving DecidableEq, Repr

/-- Raw template document: every key `normalize_saved_post` reads, `none`
when absent. -/
structure RawPost where
  name : Option String := none
  channel_id : Option Int := none
  title : Option String := none
  description : Option String := none
  color_hex : Option String := none
  image_url : Option (Option String) := none
  image_position : Option String := none
  last_message_id : Option (Option Int) := none
  is_ticket_panel : Option Bool := none
  order_label : Option String := none
  order_emoji : Option String := none
  order_style : Option String := none
  support_label : Option String := none
  support_emoji : Option String := none
  support_style : Option String := none
  auto_gradient : Option Bool := none
  gradient_start_hex : Option String := none
  gradient_end_hex : Option String := none
  auto_order_message : Option String := none
  auto_support_message : Option String := none
  panel_buttons : Option (List RawButton) := none
  extra_blocks : Option (List RawBlock) := none
  split_enabled : Option Bool := none
  split_title : Option String := none
  split_description : Option String := none
  split_color_hex : Option String := none
deriving DecidableEq, Repr

/-- Python `str(v)` where `v` is a present-or-absent value that is either a
string or `None`: the absent case is the caller's `""` default, and
`str(None)` is the string `"None"`. -/
def strOfPyOpt : Option (Option String) → String
  | none => ""
  | some none => "None"
  | some (some s) => s

/-- Source: the per-button loop of `normalize_saved_post` (lines 192-212):
row coerced and clamped, action lowercased with the `link → url` alias and a
whitelist, emoji stripped, style normalized, url `str(...).strip() or None`. -/
def normalize_panel_button (btn : RawButton) : PanelButton :=
  let row := btn.row.getD 0
  let action0 := pyLower (pyStrip (btn.action.getD "none"))
  let action1 := if action0 = "link" then "url" else action0
  let action :=
    if action1 = "order" ∨ action1 = "support" ∨ action1 = "url" ∨ action1 = "none" then action1
    else "none"
  { label := btn.label.getD "Button"
    emoji := pyStrip (btn.emoji.getD "")
    style := normalize_style_name (btn.style.getD "secondary")
    action := action
    url := let u := pyStrip (strOfPyOpt btn.url)
           if u = "" then none else some u
    row := max 0 (min 4 row) }

/-- Source: `ExtraBlock(**clean_block)` — present keys are used as-is,
missing keys fall back to the dataclass defaults. -/
def normalize_extra_block (b : RawBlock) : ExtraBlock :=
  { title := b.title.getD ""
    description := b.description.getD ""
    color_hex := b.color_hex.getD "2ECC71"
    image_url := b.image_url.getD none
    image_position := b.image_position.getD "bottom" }

/-- Source: `normalize_saved_post` — legacy `split_*` migration, per-button
and per-block normalization, style/emoji canonicalization, then
`SavedPost(**clean)` with the dataclass defaults for absent fields. -/
def normalize_saved_post (raw : RawPost) : SavedPost :=
  let split_enabled := raw.split_enabled.getD false
  let split_title := pyStrip (raw.split_title.getD "")
  let split_description := pyStrip (raw.split_description.getD "")
  let split_color_hex := pyStrip (raw.split_color_hex.getD (raw.color_hex.getD "2ECC71"))
  let blocks := (raw.extra_blocks.getD []).map normalize_extra_block
  let panel_buttons := (raw.panel_buttons.getD []).map normalize_panel_button
  let blocks :=
    if split_enabled ∧ (split_title ≠ "" ∨ split_description ≠ "") then
      blocks ++ [{ title := split_title
                   description := split_description
                   color_hex := if split_color_hex = "" then "2ECC71" else split_color_hex
                   image_url := none
                   image_position := "bottom" }]
    else blocks
  { name := raw.name.getD "post"
    channel_id := raw.channel_id.getD 0
    title := raw.title.getD ""
    description := raw.description.getD ""
    color_hex := raw.color_hex.getD "2ECC71"
    image_url := raw.image_url.getD none
    image_position := raw.image_position.getD "bottom"
    last_message_id := raw.last_message_id.getD none
    is_ticket_panel := raw.is_ticket_panel.getD false
    order_label := raw.order_label.getD "ORDER"
    order_emoji := pyStrip (raw.order_emoji.getD "🧾")
    order_style := normalize_style_name (raw.order_style.getD "success")
    support_label := raw.support_label.getD "SUPPORT"
    support_emoji := pyStrip (raw.support_emoji.getD "🛟")
    support_style := normalize_style_name (raw.support_style.getD "primary")
    auto_gradient := raw.auto_gradient.getD false
    gradient_start_hex := raw.gradient_start_hex.getD "2ECC71"
    gradient_end_hex := raw.gradient_end_hex.getD "5865F2"
    auto_order_message := raw.auto_order_message.getD "Спасибо за заказ! Опишите задачу и бюджет."
    auto_support_message :=
      raw.auto_support_message.getD "Спасибо за обращение в саппорт! Опишите проблему подробно."
    panel_buttons := panel_buttons
    extra_blocks := blocks }

/-- Python `dataclasses.asdict` on a `PanelButton`: every field becomes a
present key; a `None` url stays Python `None` (`some none`). -/
def asdict_panel_button (b : PanelButton) : RawButton :=
  { label := some b.label, emoji := some b.emoji, style := some b.style,
    action := some b.action, url := some b.url, row := some b.row }

/-- Python `dataclasses.asdict` on an `ExtraBlock`. -/
def asdict_extra_block (e : ExtraBlock) : RawBlock :=
  { title := some e.title, description := some e.description,
    color_hex := some e.color_hex, image_url := some e.image_url,
    image_position := some e.image_position }

/-- Python `dataclasses.asdict` on a `SavedPost` (what `PostStore.save`
writes); the legacy `split_*` keys are not dataclass fields and are absent. -/
def asdict_saved_post (p : SavedPost) : RawPost :=
  { name := some p.name
    channel_id := some p.channel_id
    title := some p.title
    description := some p.description
    color_hex := some p.color_hex
    image_url := some p.image_url
    image_position := some p.image_position
    last_message_id := some p.last_message_id
    is_ticket_panel := some p.is_ticket_panel
    order_label := some p.order_label
    order_emoji := some p.order_emoji
    order_style := some p.order_style
    support_label := some p.support_label
    support_emoji := some p.support_emoji
    support_style := some p.support_style
    auto_gradient := some p.auto_gradient
    gradient_start_hex := some p.gradient_start_hex
    gradient_end_hex := some p.gradient_end_hex
    auto_order_message := some p.auto_order_message
    auto_support_message := some p.auto_support_message
    panel_buttons := some (p.panel_buttons.map asdict_panel_button)
    extra_blocks := some (p.extra_blocks.map asdict_extra_block)
    split_enabled := none
    split_title := none
    split_description := none
    split_color_hex := none }

/-- A well-typed raw template document with one structured button and no url:
the input exhibiting the normalize/reload defect. -/
def c3raw : RawPost :=
  { name := some "p", channel_id := some 1, title := some "t",
    description := some "d",
    panel_buttons := some [{ label := some "B", action := some "order" }] }

/-! ### Role/link registry and the notification target resolver -/

/-- The registry contents the resolver reads: `UserLinkStore.discord_to_tg_chat`,
`TgRoleStore.roles` and `TgRoleStore.role_chats` (dicts modelled as their item
lists). -/
structure Registry where
  discord_to_tg_chat : List (Int × Int)
  roles : List (Int × String)
  role_chats : List (Int × Int)

/-- Source: `TgRoleStore.chats_with_roles` — the set of chats registered by
users whose role is in `allowed`. -/
def chats_with_roles (roles : List (Int × String)) (role_chats : List (Int × Int))
    (allowed : List String) : Finset Int :=
  roles.foldl
    (fun out ur =>
      if ur.2 ∈ allowed then
        match lookupA role_chats ur.1 with
        | some c => insert c out
        | none => out
      else out)
    ∅

/-- Source: `BridgeBot._notification_targets` — opener link (Python
truthiness: a linked chat id of `0` is skipped), the static `TG_ADMIN_IDS`
set, admin/manager role chats, and builder role chats for `order` tickets. -/
def notification_targets (tg_admin_ids : Finset Int) (R : Registry)
    (ticket_type : String) (opener_discord_id : Int) : Finset Int :=
  let targets : Finset Int := ∅
  let targets :=
    match lookupA R.discord_to_tg_chat opener_discord_id with
    | some opener_chat => if opener_chat ≠ 0 then insert opener_chat targets else targets
    | none => targets
  let targets := targets ∪ tg_admin_ids
  let targets := targets ∪ chats_with_roles R.roles R.role_chats ["admin", "manager"]
  if ticket_type = "order" then targets ∪ chats_with_roles R.roles R.role_chats ["builder"]
  else targets

/-- Modelled from the claim's words (not the source): the resolver output as
the claim states it — the opener's linked chat whenever the link exists
(regardless of its value), unioned with the admin set and the role chats. -/
def resolve_per_claim (tg_admin_ids : Finset Int) (R : Registry)
    (ticket_type : String) (opener_discord_id : Int) : Finset Int :=
  (match lookupA R.discord_to_tg_chat opener_discord_id with
   | some opener_chat => {opener_chat}
   | none => ∅)
    ∪ tg_admin_ids
    ∪ chats_with_roles R.roles R.role_chats ["admin", "manager"]
    ∪ (if ticket_type = "order" then chats_with_roles R.roles R.role_chats ["builder"] else ∅)

/-- Registry whose only content is a user link from opener 1 to chat id 0
(the falsy chat id). -/
def c1registry : Registry :=
  { discord_to_tg_chat := [(1, 0)], roles := [], role_chats := [] }

/-! ### Digest upsert engine (`BridgeBot._update_ticket_digest`)

The Telegram collaborator is modelled as data: `mkId k` is the message id the
platform returns for the `k`-th successful send of the refresh history, and
`sendOk chat` says whether sending to `chat` succeeds (a failed send raises,
is caught, and leaves no trace).  Editing an existing digest message never
changes the id map, whether or not the edit succeeds. -/

/-- Observable Telegram calls of one digest refresh. -/
inductive DigestEvent where
  | sent (chat : Int) (message_id : Int)
  | edited (chat : Int) (message_id : Int)
deriving DecidableEq, Repr

/-- State threaded through the recipient loop of `_update_ticket_digest`:
the binding's `digest_message_ids`, the supply counter for fresh message ids,
the `changed` flag and the calls made so far. -/
structure DigestPass where
  digest_message_ids : List (Int × Int)
  next_id : Nat
  changed : Bool
  events : List DigestEvent
deriving DecidableEq, Repr

/-- Source: one iteration of `for chat_id in targets` — `msg_id` is looked
up, a truthy id is edited in place, otherwise a new message is sent and its
id recorded (`changed = True`); exceptions are caught and logged. -/
def digest_chat_step (mkId : Nat → Int) (sendOk : Int → Bool) (chat : Int)
    (s : DigestPass) : DigestPass :=
  let sendCase : DigestPass :=
    if sendOk chat then
      { digest_message_ids := insertA s.digest_message_ids chat (mkId s.next_id)
        next_id := s.next_id + 1
        changed := true
        events := s.events ++ [.sent chat (mkId s.next_id)] }
    else s
  match lookupA s.digest_message_ids chat with
  | some msg_id =>
    if msg_id = 0 then sendCase
    else { s with events := s.events ++ [.edited chat msg_id] }
  | none => sendCase

/-- Source: the recipient loop of `_update_ticket_digest`, iterated over an
enumeration of the resolved target set (Python set iteration order is
unspecified, so the enumeration is a parameter). -/
def update_ticket_digest (mkId : Nat → Int) (sendOk : Int → Bool) (targets : List Int)
    (m : List (Int × Int)) (ctr : Nat) : DigestPass :=
  targets.foldl (fun s c => digest_chat_step mkId sendOk c s)
    { digest_message_ids := m, next_id := ctr, changed := false, events := [] }

/-- Result of a refresh together with the persistence decision
(`if changed: self.ticket_store.set(binding)`): `mem` is the binding's
in-memory id map, `disk` the persisted copy. -/
structure DigestRefreshResult where
  mem : List (Int × Int)
  disk : List (Int × Int)
  changed : Bool
  events : List DigestEvent
deriving Repr

/-- One `_update_ticket_digest` call including the save-on-change step. -/
def update_ticket_digest_persist (mkId : Nat → Int) (sendOk : Int → Bool)
    (targets : List Int) (m disk : List (Int × Int)) (ctr : Nat) : DigestRefreshResult :=
  let p := update_ticket_digest mkId sendOk targets m ctr
  { mem := p.digest_message_ids
    disk := if p.changed then p.digest_message_ids else disk
    changed := p.changed
    events := p.events }

/-- State after `n` consecutive refresh calls with all sends succeeding,
starting from the freshly created binding (empty digest map); the recorded
`changed`/`events` are those of the `n`-th call. -/
def digest_refresh_iter (mkId : Nat → Int) (targets : List Int) : Nat → DigestPass
  | 0 => { digest_message_ids := [], next_id := 0, changed := false, events := [] }
  | Nat.succ n =>
    let prev := digest_refresh_iter mkId targets n
    update_ticket_digest mkId (fun _ => true) targets prev.digest_message_ids prev.next_id

/-! ### Ticket close (`CloseTicketButton.close_ticket`, `BridgeBot.close_ticket`)

Network sends are modelled as the set of calls made (Python iterates the
resolved target set in unspecified order, so the observable outcome is a set
of events); the archive collector's artifacts are a list of file names. -/

/-- Observable collaborator calls of the close path. -/
inductive CloseEvent where
  | tgText (chat : Int) (text : String)
  | tgDocument (chat : Int) (file : String)
  | tgRating (chat : Int)
  | channelDelete (channel : Int)
deriving DecidableEq, Repr

/-- The acknowledgment the initiating actor receives from the close button. -/
inductive CloseAck where
  | notTicket
  | closing
deriving DecidableEq, Repr

/-- Source: `BridgeBot.close_ticket` — closure notice to every resolved
target, archive artifacts and the rating prompt to every resolved target,
binding removed, channel deletion requested. -/
def close_ticket (tg_admin_ids : Finset Int) (R : Registry)
    (store : List (Int × TicketBinding)) (channelId : Int) (channelName : String)
    (binding : TicketBinding) (closedByName : String) (archive_files : List String) :
    List (Int × TicketBinding) × Finset CloseEvent :=
  let noticeText := "🔒 Тикет закрыт: #" ++ channelName ++ " (закрыл: " ++ closedByName ++ ")"
  let targets1 := notification_targets tg_admin_ids R binding.ticket_type binding.opener_discord_id
  let notifySends := targets1.image fun chat => CloseEvent.tgText chat noticeText
  let targets := notification_targets tg_admin_ids R binding.ticket_type binding.opener_discord_id
  let fanout := targets.biUnion fun chat =>
    archive_files.toFinset.image (fun fp => CloseEvent.tgDocument chat fp) ∪ {CloseEvent.tgRating chat}
  (removeA store channelId, notifySends ∪ fanout ∪ {CloseEvent.channelDelete channelId})

/-- Source: `CloseTicketButton.close_ticket` — looks up the binding for the
interaction channel; with no binding it replies "Это не тикет-канал."
ephemerally and returns, otherwise acknowledges and delegates to
`BridgeBot.close_ticket`. -/
def close_ticket_button (tg_admin_ids : Finset Int) (R : Registry)
    (store : List (Int × TicketBinding)) (channelId : Int) (channelName : String)
    (closedByName : String) (archive_files : List String) :
    List (Int × TicketBinding) × Finset CloseEvent × CloseAck :=
  match lookupA store channelId with
  | none => (store, ∅, CloseAck.notTicket)
  | some binding =>
    let r := close_ticket tg_admin_ids R store channelId channelName binding closedByName
      archive_files
    (r.1, r.2, CloseAck.closing)

/-- Registry of end-to-end scenario B: the opener (discord id 1) has a user
link to chat 555, and telegram user 9 holds role `admin` with registered
chat 777. -/
def c4registry : Registry :=
  { discord_to_tg_chat := [(1, 555)], roles := [(9, "admin")], role_chats := [(9, 777)] }

/-- The ticket binding of scenario B: channel 100, opener 1. -/
def c4binding : TicketBinding :=
  { ticket_channel_id := 100, opener_discord_id := 1, ticket_type := "support" }

/-! ### Renderer: gradient colors and embeds (`hex_midpoint`, `embeds_from_post`) -/

/-- Hex digit value as accepted by Python `int(_, 16)` (`0-9`, `a-f`, `A-F`). -/
def hexDigitVal? (c : Char) : Option Nat :=
  let n := c.toNat
  if 48 ≤ n ∧ n ≤ 57 then some (n - 48)
  else if 97 ≤ n ∧ n ≤ 102 then some (n - 97 + 10)
  else if 65 ≤ n ∧ n ≤ 70 then some (n - 65 + 10)
  else none

/-- Python `int(s, 16)` on plain hex digit strings (`none` models the
`ValueError` on an empty or non-hex string). -/
def parseHexChars? (cs : List Char) : Option Nat :=
  if cs = [] then none
  else cs.foldl (fun acc c => acc.bind fun a => (hexDigitVal? c).map fun v => 16 * a + v) (some 0)

/-- Python `s.strip("#")` — leading and trailing `#` characters removed. -/
def pyStripHash (s : String) : String :=
  ⟨((s.data.dropWhile (· = '#')).reverse.dropWhile (· = '#')).reverse⟩

/-- Uppercase hex digit, as produced by Python `format(_, "02X")`. -/
def hexDigitUpper (n : Nat) : Char :=
  if n < 10 then Char.ofNat (48 + n) else Char.ofNat (65 + n - 10)

/-- Python `f"{n:02X}"` for byte values. -/
def toHex2 (n : Nat) : String :=
  ⟨[hexDigitUpper (n / 16), hexDigitUpper (n % 16)]⟩

/-- The three `int(x[0:2],16), int(x[2:4],16), int(x[4:6],16)` reads of
`hex_midpoint`, after `strip("#")`. -/
def hexChannels? (s : String) : Option (Nat × Nat × Nat) :=
  let t := (pyStripHash s).data
  match parseHexChars? (t.take 2), parseHexChars? ((t.drop 2).take 2),
      parseHexChars? ((t.drop 4).take 2) with
  | some r, some g, some b => some (r, g, b)
  | _, _, _ => none

/-- Source: `hex_midpoint` — per-channel integer midpoint, formatted back as
six uppercase hex digits (`none` models the `ValueError` on malformed input). -/
def hex_midpoint? (a b : String) : Option String :=
  match hexChannels? a, hexChannels? b with
  | some (ar, ag, ab), some (br, bg, bb) =>
    some (toHex2 ((ar + br) / 2) ++ toHex2 ((ag + bg) / 2) ++ toHex2 ((ab + bb) / 2))
  | _, _ => none

/-- A rendered embed: the data `embeds_from_post` fills in. -/
structure EmbedModel where
  title : String
  description : String
  color : Nat
  image_url : Option String
deriving DecidableEq, Repr

/-- One extra block rendered by the loop of `embeds_from_post`. -/
def extra_embed? (b : ExtraBlock) : Option EmbedModel :=
  match parseHexChars? (pyStripHash b.color_hex).data with
  | none => none
  | some c =>
    if pyTruthy b.image_url then
      if b.image_position = "top" then
        some { title := b.title, description := "[image above]\n" ++ b.description,
               color := c, image_url := b.image_url }
      else
        some { title := b.title, description := b.description, color := c,
               image_url := b.image_url }
    else
      some { title := b.title, description := b.description, color := c, image_url := none }

/-- The extra blocks of a post, rendered in order (a malformed color hex
raises, modelled by `none`). -/
def extra_embeds? : List ExtraBlock → Option (List EmbedModel)
  | [] => some []
  | b :: t =>
    match extra_embed? b, extra_embeds? t with
    | some e, some es => some (e :: es)
    | _, _ => none

/-- Source: `embeds_from_post` — the main embed uses `color_hex`, overridden
by `hex_midpoint(gradient_start_hex, gradient_end_hex)` when `auto_gradient`
is set; image-on-top prepends the `[image above]` marker. -/
def embeds_from_post? (post : SavedPost) : Option (List EmbedModel) :=
  let base? : Option String :=
    if post.auto_gradient then hex_midpoint? post.gradient_start_hex post.gradient_end_hex
    else some post.color_hex
  match base? with
  | none => none
  | some base_color_hex =>
    match parseHexChars? (pyStripHash base_color_hex).data with
    | none => none
    | some col =>
      let main : EmbedModel :=
        if pyTruthy post.image_url ∧ post.image_position = "top" then
          { title := post.title, description := "[image above]\n" ++ post.description,
            color := col, image_url := post.image_url }
        else if pyTruthy post.image_url then
          { title := post.title, description := post.description, color := col,
            image_url := post.image_url }
        else
          { title := post.title, description := post.description, color := col,
            image_url := none }
      match extra_embeds? post.extra_blocks with
      | none => none
      | some extras => some (main :: extras)

/-! ### Interactive panel view (`TicketOpenView.__init__`, `publish_post`) -/

/-- An element the view adds: a link button, or an action button whose
callback opens a ticket of the captured kind. -/
inductive ViewItem where
  | link (label : String) (emoji : Option String) (url : String) (row : Int)
  | action (label : String) (emoji : Option String) (style : ButtonStyle)
      (ticket_type : String) (custom_id : String) (row : Int)
deriving DecidableEq, Repr

/-- Stable insertion into a row-sorted list (an element is placed before the
first strictly-later row, after equal rows seen so far). -/
def insertByRow (b : PanelButton) : List PanelButton → List PanelButton
  | [] => [b]
  | h :: t => if b.row ≤ h.row then b :: h :: t else h :: insertByRow b t

/-- Python `list.sort(key=lambda b: b.row)` — a stable sort by row. -/
def sortByRow (l : List PanelButton) : List PanelButton :=
  l.foldr insertByRow []

/-- Source: `TicketOpenView.__init__` — default ORDER/SUPPORT buttons when
the post has none, stable sort by row, then per-button dispatch: link
buttons need a truthy url, `order`/`support` buttons get a callback and the
`panel:{name}:{i}` custom id, anything else is dropped. -/
def ticket_open_view_items (post : SavedPost) : List ViewItem :=
  let buttons :=
    if post.panel_buttons.isEmpty then
      [{ label := post.order_label, emoji := post.order_emoji, style := post.order_style,
         action := "order", url := none, row := 0 },
       { label := post.support_label, emoji := post.support_emoji, style := post.support_style,
         action := "support", url := none, row := 0 }]
    else post.panel_buttons
  let sorted := sortByRow buttons
  sorted.enum.filterMap fun ic =>
    let i := ic.1
    let cfg := ic.2
    let action := pyLower (pyStrip (if cfg.action = "" then "none" else cfg.action))
    let row := max 0 (min 4 cfg.row)
    if action = "url" ∧ pyTruthy cfg.url then
      some (.link (if cfg.label = "" then "Open" else cfg.label)
        (if cfg.emoji = "" then none else some cfg.emoji) (cfg.url.getD "") row)
    else if action = "order" ∨ action = "support" then
      some (.action (if cfg.label = "" then "Action" else cfg.label)
        (if cfg.emoji = "" then none else some cfg.emoji) (style_from_name cfg.style)
        action ("panel:" ++ post.name ++ ":" ++ toString i) row)
    else none

/-- Source: the branch of `publish_post` — a post is sent with the
interactive view iff the materialized post is a ticket panel or has any
panel buttons. -/
def publish_post_uses_panel (post : SavedPost) : Bool :=
  let runtime := materialize_post_for_send post
  runtime.is_ticket_panel || !runtime.panel_buttons.isEmpty

/-- Concrete post of the C9 witness: flagged as a ticket panel, no
structured buttons, no tags in the description. -/
def c9post : SavedPost :=
  { name := "panel", channel_id := 1, title := "", description := "",
    is_ticket_panel := true }

/-- Concrete post of the C8 witness: gradient mode on, with the default
gradient endpoints `2ECC71`/`5865F2`. -/
def c8post : SavedPost :=
  { name := "g", channel_id := 1, title := "", description := "", auto_gradient := true }

/-! ## Theorems -/

/-! ### Association list (Python dict) lemmas -/

theorem lookupA_insertA_self {α : Type} (m : List (Int × α)) (k : Int) (v : α) :
    lookupA (insertA m k v) k = some v := by
  induction m with
  | nil => simp [insertA, lookupA]
  | cons p t ih =>
    by_cases h : p.1 = k
    · simp [insertA, h, lookupA]
    · simp [insertA, h, lookupA, ih]

theorem lookupA_insertA_ne {α : Type} (m : List (Int × α)) (k c : Int) (v : α)
    (h : k ≠ c) : lookupA (insertA m k v) c = lookupA m c := by
  induction m with
  | nil => simp [insertA, lookupA, h]
  | cons p t ih =>
    by_cases hp : p.1 = k
    · simp [insertA, hp, lookupA, h]
    · simp [insertA, hp, lookupA, ih]

/-! ### Button-tag scanner lemmas -/

theorem tagBody?_eq_some {s body rest : List Char}
    (h : tagBody? s = some (body, rest)) :
    s = tagChars body ++ rest ∧ body ≠ [] := by
  match s with
  | [] => simp [tagBody?] at h
  | [c1] => simp [tagBody?] at h
  | [c1, c2] => simp [tagBody?] at h
  | [c1, c2, c3] => simp [tagBody?] at h
  | [c1, c2, c3, c4] => simp [tagBody?] at h
  | [c1, c2, c3, c4, c5] => simp [tagBody?] at h
  | c1 :: c2 :: c3 :: c4 :: c5 :: c6 :: rest0 =>
    rw [tagBody?] at h
    split at h
    · next hc =>
      obtain ⟨rfl, rfl, rfl, rfl, rfl, rfl⟩ := hc
      split at h
      · next hbr =>
        obtain ⟨hbody, htk⟩ := hbr
        rw [Option.some.injEq, Prod.mk.injEq] at h
        obtain ⟨hb, hr⟩ := h
        subst hb
        subst hr
        refine ⟨?_, hbody⟩
        have h1 := List.takeWhile_append_dropWhile
          (p := fun c => !(c = '{' || c = '}')) (l := rest0)
        have h2 : (rest0.dropWhile fun c => !(c = '{' || c = '}')) =
            ['}', '}'] ++ (rest0.dropWhile fun c => !(c = '{' || c = '}')).drop 2 := by
          conv_lhs => rw [← List.take_append_drop 2
            (rest0.dropWhile fun c => !(c = '{' || c = '}'))]
          rw [htk]
        simp only [tagChars, List.cons_append, List.append_assoc, List.cons.injEq,
          true_and]
        conv_lhs => rw [← h1, h2]
        simp
      · exact absurd h (by simp)
    · exact absurd h (by simp)

theorem tagBody?_length {s body rest : List Char}
    (h : tagBody? s = some (body, rest)) : rest.length + 9 ≤ s.length := by
  obtain ⟨hs, hne⟩ := tagBody?_eq_some h
  have hb : 1 ≤ body.length := by
    cases body with
    | nil => exact absurd rfl hne
    | cons a t => simp
  subst hs
  simp [tagChars]
  omega

theorem tagRepl_malformed (base_row : Int) {body : List Char}
    (h : bodyMalformed body = true) :
    tagRepl base_row body = (tagChars body, none) := by
  rw [bodyMalformed] at h
  rw [tagRepl]
  by_cases hlen : (tagParts body).length < 2
  · rw [if_pos hlen]
  · rw [if_neg hlen] at h
    rw [if_neg hlen]
    simp only [Bool.not_eq_eq_eq_not, Bool.not_true, Bool.or_eq_false_iff,
      beq_eq_false_iff_ne, ne_eq] at h
    obtain ⟨⟨h1, h2⟩, h3⟩ := h
    simp only [List.getD_eq_getElem?_getD] at h1 h2 h3
    simp [h1, h2, h3]

theorem scanTagsAux_malformed (base_row : Int) :
    ∀ (n : Nat) (s : List Char), s.length ≤ n → allTagsMalformed n s = true →
      scanTagsAux base_row n s = (s, []) := by
  intro n
  induction n with
  | zero =>
    intro s hlen _
    have : s = [] := by
      cases s with
      | nil => rfl
      | cons a t => simp at hlen
    subst this
    rfl
  | succ n ih =>
    intro s hlen hall
    cases s with
    | nil => rfl
    | cons c cs =>
      rw [scanTagsAux, allTagsMalformed] at *
      cases htb : tagBody? (c :: cs) with
      | none =>
        rw [htb] at hall
        have hcs : cs.length ≤ n := by
          simp only [List.length_cons] at hlen
          omega
        simp only [htb]
        rw [ih cs hcs hall]
      | some br =>
        obtain ⟨body, rest⟩ := br
        rw [htb] at hall
        simp only [Bool.and_eq_true] at hall
        obtain ⟨hbad, hrest⟩ := hall
        have hlenr : rest.length ≤ n := by
          have hl9 := tagBody?_length htb
          simp only [List.length_cons] at hlen hl9
          omega
        obtain ⟨hs, -⟩ := tagBody?_eq_some htb
        simp only [htb]
        rw [tagRepl_malformed base_row hbad, ih rest hlenr hrest]
        rw [← hs]

/-! ### Claim C6: tag round trip -/

/-- C6: compiling the text "Hello \x7b\x7bbtn:Buy|order|success|bottom\x7d\x7d world"
yields the cleaned text "Hello Buy world" and exactly one extracted
PanelButton with label "Buy", action `order`, style `success` and row 4 (the
literal POSITION token "bottom" maps to the last row). -/
theorem tag_round_trip_buy :
    parse_button_tags "Hello \x7b\x7bbtn:Buy|order|success|bottom\x7d\x7d world" 0 =
      ("Hello Buy world",
        [{ label := "Buy", emoji := "", style := "success", action := "order",
           url := none, row := 4 }]) := by
  decide

/-! ### Claim C7: malformed tags are left verbatim -/

/-- C7: for every input text, `parse_button_tags` leaves every malformed tag
verbatim and extracts no button for it: a tag body with fewer than two
pipe-separated fields, or whose ACTION does not resolve through the alias
table to `order`, `support` or `url`, is replaced by its own original text
(`match.group(0)`), so an input all of whose tags are malformed is returned
character-for-character with an empty button list. -/
theorem malformed_tags_left_verbatim :
    (∀ (base_row : Int) (body : List Char), bodyMalformed body = true →
        tagRepl base_row body = (tagChars body, none)) ∧
    (∀ (text : String) (default_row : Int),
        allTagsMalformed text.data.length text.data = true →
        parse_button_tags text default_row = (text, [])) := by
  constructor
  · exact fun base_row body h => tagRepl_malformed base_row h
  · intro text default_row hall
    rw [parse_button_tags]
    by_cases he : text = ""
    · rw [if_pos he]
    · rw [if_neg he]
      have hscan := scanTagsAux_malformed (max 0 (min 4 default_row)) text.data.length
        text.data le_rfl hall
      simp only [hscan]

/-- Witness for C7 at a concrete malformed body (no pipe at all) and a
concrete text whose only tag is that body. -/
theorem malformed_tags_left_verbatim_witness :
    bodyMalformed "oops".data = true ∧
    parse_button_tags "a \x7b\x7bbtn:oops\x7d\x7d b" 0 = ("a \x7b\x7bbtn:oops\x7d\x7d b", []) :=
  ⟨by decide, malformed_tags_left_verbatim.2 "a \x7b\x7bbtn:oops\x7d\x7d b" 0 (by decide)⟩

/-! ### Claim C3: the normalizer is not idempotent (code bug)

Reloading a saved template (`normalize_saved_post` on `asdict` output) turns
a panel button whose `url` is Python `None` into `url = "None"`: the source
computes `str(btn.get("url", "")).strip() or None`, and `str(None)` is the
string `"None"`. -/

/-- C3: normalization is claimed idempotent, but on the raw document
`c3raw` (one structured button without a url) renormalizing the serialized
canonical template changes the button's url from `None` to the string
`"None"`, so `normalize(asdict(normalize(t))) ≠ normalize(t)`. -/
theorem normalize_saved_post_not_idempotent :
    (normalize_saved_post c3raw).panel_buttons.map PanelButton.url = [none] ∧
    (normalize_saved_post (asdict_saved_post (normalize_saved_post c3raw))).panel_buttons.map
      PanelButton.url = [some "None"] ∧
    normalize_saved_post (asdict_saved_post (normalize_saved_post c3raw)) ≠
      normalize_saved_post c3raw :=
  ⟨by decide, by decide, by decide⟩

/-! ### Claim C1: the notification target resolver -/

/-- Folding the role table against an empty chat registry adds nothing. -/
theorem chats_with_roles_nil (roles : List (Int × String)) (allowed : List String) :
    chats_with_roles roles [] allowed = ∅ := by
  rw [chats_with_roles]
  suffices h : ∀ init : Finset Int,
      roles.foldl
        (fun out ur =>
          if ur.2 ∈ allowed then
            match lookupA ([] : List (Int × Int)) ur.1 with
            | some c => insert c out
            | none => out
          else out)
        init = init by
    exact h ∅
  intro init
  induction roles generalizing init with
  | nil => rfl
  | cons r t ih =>
    simp only [List.foldl_cons]
    have hstep :
        (if r.2 ∈ allowed then
          match lookupA ([] : List (Int × Int)) r.1 with
          | some c => insert c init
          | none => init
        else init) = init := by
      split <;> rfl
    rw [hstep]
    exact ih init

/-- C1 counterexample: with the opener linked to chat id `0` the resolver
returns the empty set, while the claim's union contains `0` — the source
tests Python truthiness of the linked chat, not its presence. -/
theorem notification_targets_counterexample :
    notification_targets ∅ c1registry "support" 1 ≠
      resolve_per_claim ∅ c1registry "support" 1 := by
  decide

/-- C1 (amended): for every ticket kind, opener and registry, the resolver
output is the deduplicated union of the opener's linked chat when present
and nonzero (Python truthiness), the fixed admin set, the admin/manager role
chats, and — only for `order` tickets — the builder role chats; when the
opener has no link, the admin set is empty and no role chats are registered,
the result is empty. -/
theorem notification_targets_amended (A : Finset Int) (R : Registry) (k : String) (U : Int) :
    (notification_targets A R k U =
      (match lookupA R.discord_to_tg_chat U with
       | some c => if c = 0 then ∅ else {c}
       | none => ∅)
        ∪ A ∪ chats_with_roles R.roles R.role_chats ["admin", "manager"]
        ∪ (if k = "order" then chats_with_roles R.roles R.role_chats ["builder"] else ∅))
    ∧ (lookupA R.discord_to_tg_chat U = none → A = ∅ → R.role_chats = [] →
        notification_targets A R k U = ∅) := by
  constructor
  · rw [notification_targets]
    rcases hl : lookupA R.discord_to_tg_chat U with _ | c
    · by_cases hk : k = "order" <;> simp [hk]
    · by_cases hc : c = 0 <;> by_cases hk : k = "order" <;> simp [hc, hk]
  · intro hnone hA hrc
    subst hA
    rw [notification_targets, hnone, hrc]
    by_cases hk : k = "order" <;> simp [hk, chats_with_roles_nil]

/-- Witness for C1: an empty registry and empty admin set resolve to no
recipients. -/
theorem notification_targets_amended_witness :
    notification_targets ∅ { discord_to_tg_chat := [], roles := [], role_chats := [] }
      "support" 5 = ∅ :=
  (notification_targets_amended ∅
    { discord_to_tg_chat := [], roles := [], role_chats := [] } "support" 5).2 rfl rfl rfl

/-! ### Digest engine lemmas -/

theorem digest_chat_step_events (mkId : Nat → Int) (sendOk : Int → Bool) (chat : Int)
    (s : DigestPass) :
    ∃ es, (digest_chat_step mkId sendOk chat s).events = s.events ++ es := by
  rw [digest_chat_step]
  cases hm : lookupA s.digest_message_ids chat with
  | none =>
    by_cases hok : sendOk chat
    · exact ⟨[.sent chat (mkId s.next_id)], by simp [hok]⟩
    · exact ⟨[], by simp [hok]⟩
  | some id =>
    by_cases h0 : id = 0
    · by_cases hok : sendOk chat
      · exact ⟨[.sent chat (mkId s.next_id)], by simp [h0, hok]⟩
      · exact ⟨[], by simp [h0, hok]⟩
    · exact ⟨[.edited chat id], by simp [h0]⟩

theorem digest_chat_step_preserve (mkId : Nat → Int) (sendOk : Int → Bool) (chat : Int)
    (s : DigestPass) (c : Int) (v : Int) (hv : lookupA s.digest_message_ids c = some v)
    (hv0 : v ≠ 0) :
    lookupA (digest_chat_step mkId sendOk chat s).digest_message_ids c = some v := by
  rw [digest_chat_step]
  cases hm : lookupA s.digest_message_ids chat with
  | none =>
    have hne : chat ≠ c := fun h => by rw [h, hv] at hm; cases hm
    by_cases hok : sendOk chat
    · simp only [hok, if_true]
      rw [lookupA_insertA_ne _ _ _ _ hne]
      exact hv
    · simpa [hok] using hv
  | some id =>
    by_cases h0 : id = 0
    · have hne : chat ≠ c := by
        intro h
        rw [h, hv] at hm
        injection hm with h'
        exact hv0 (by rw [h', h0])
      by_cases hok : sendOk chat
      · simp only [h0, if_true, hok]
        rw [lookupA_insertA_ne _ _ _ _ hne]
        exact hv
      · simpa [h0, hok] using hv
    · simpa [h0] using hv

theorem digest_chat_step_frame (mkId : Nat → Int) (sendOk : Int → Bool) (chat : Int)
    (s : DigestPass) (c : Int) (hne : chat ≠ c) :
    lookupA (digest_chat_step mkId sendOk chat s).digest_message_ids c =
      lookupA s.digest_message_ids c := by
  rw [digest_chat_step]
  cases hm : lookupA s.digest_message_ids chat with
  | none =>
    by_cases hok : sendOk chat
    · simp only [hok, if_true]
      exact lookupA_insertA_ne _ _ _ _ hne
    · simp [hok]
  | some id =>
    by_cases h0 : id = 0
    · by_cases hok : sendOk chat
      · simp only [h0, if_true, hok]
        exact lookupA_insertA_ne _ _ _ _ hne
      · simp [h0, hok]
    · simp [h0]

theorem digest_chat_step_changed_mono (mkId : Nat → Int) (sendOk : Int → Bool) (chat : Int)
    (s : DigestPass) (h : s.changed = true) :
    (digest_chat_step mkId sendOk chat s).changed = true := by
  rw [digest_chat_step]
  cases hm : lookupA s.digest_message_ids chat with
  | none =>
    by_cases hok : sendOk chat <;> simp [hok, h]
  | some id =>
    by_cases h0 : id = 0
    · by_cases hok : sendOk chat <;> simp [h0, hok, h]
    · simp [h0, h]

theorem digest_chat_step_changed_false (mkId : Nat → Int) (sendOk : Int → Bool) (chat : Int)
    (s : DigestPass) (h : (digest_chat_step mkId sendOk chat s).changed = false) :
    (digest_chat_step mkId sendOk chat s).digest_message_ids = s.digest_message_ids := by
  rw [digest_chat_step] at h ⊢
  cases hm : lookupA s.digest_message_ids chat with
  | none =>
    by_cases hok : sendOk chat
    · rw [hm] at h
      simp [hok] at h
    · simp [hok]
  | some id =>
    by_cases h0 : id = 0
    · by_cases hok : sendOk chat
      · rw [hm] at h
        simp [h0, hok] at h
      · simp [h0, hok]
    · simp [h0]

theorem digest_chat_step_covers (mkId : Nat → Int) (sendOk : Int → Bool) (chat : Int)
    (s : DigestPass) (hok : sendOk chat = true) (hpos : ∀ i, mkId i ≠ 0) :
    ∃ v, lookupA (digest_chat_step mkId sendOk chat s).digest_message_ids chat = some v ∧
      v ≠ 0 := by
  rw [digest_chat_step]
  cases hm : lookupA s.digest_message_ids chat with
  | none =>
    refine ⟨mkId s.next_id, ?_, hpos s.next_id⟩
    simp only [hok, if_true]
    exact lookupA_insertA_self _ _ _
  | some id =>
    by_cases h0 : id = 0
    · refine ⟨mkId s.next_id, ?_, hpos s.next_id⟩
      simp only [h0, hok, if_true]
      exact lookupA_insertA_self _ _ _
    · exact ⟨id, by simpa [h0] using hm, h0⟩

theorem digest_chat_step_stable (mkId : Nat → Int) (sendOk : Int → Bool) (chat : Int)
    (s : DigestPass) (v : Int) (hv : lookupA s.digest_message_ids chat = some v)
    (hv0 : v ≠ 0) :
    digest_chat_step mkId sendOk chat s =
      { s with events := s.events ++ [DigestEvent.edited chat v] } := by
  rw [digest_chat_step, hv]
  simp [hv0]

theorem update_fold_events (mkId : Nat → Int) (sendOk : Int → Bool) :
    ∀ (ts : List Int) (s : DigestPass),
      ∃ es, (ts.foldl (fun s c => digest_chat_step mkId sendOk c s) s).events =
        s.events ++ es := by
  intro ts
  induction ts with
  | nil => exact fun s => ⟨[], by simp⟩
  | cons d t ih =>
    intro s
    obtain ⟨es1, h1⟩ := digest_chat_step_events mkId sendOk d s
    obtain ⟨es2, h2⟩ := ih (digest_chat_step mkId sendOk d s)
    exact ⟨es1 ++ es2, by simp only [List.foldl_cons, h2, h1, List.append_assoc]⟩

theorem update_fold_preserve (mkId : Nat → Int) (sendOk : Int → Bool) :
    ∀ (ts : List Int) (s : DigestPass) (c : Int) (v : Int),
      lookupA s.digest_message_ids c = some v → v ≠ 0 →
      lookupA ((ts.foldl (fun s c => digest_chat_step mkId sendOk c s) s)).digest_message_ids
        c = some v := by
  intro ts
  induction ts with
  | nil => exact fun s c v hv _ => hv
  | cons d t ih =>
    intro s c v hv hv0
    simp only [List.foldl_cons]
    exact ih _ c v (digest_chat_step_preserve mkId sendOk d s c v hv hv0) hv0

theorem update_fold_frame (mkId : Nat → Int) (sendOk : Int → Bool) :
    ∀ (ts : List Int) (s : DigestPass) (c : Int), c ∉ ts →
      lookupA ((ts.foldl (fun s c => digest_chat_step mkId sendOk c s) s)).digest_message_ids
        c = lookupA s.digest_message_ids c := by
  intro ts
  induction ts with
  | nil => exact fun s c _ => rfl
  | cons d t ih =>
    intro s c hc
    have hd : d ≠ c := fun h => hc (by rw [h]; exact List.mem_cons_self c t)
    have ht : c ∉ t := fun h => hc (List.mem_cons_of_mem d h)
    simp only [List.foldl_cons]
    rw [ih _ c ht]
    exact digest_chat_step_frame mkId sendOk d s c hd

theorem update_fold_changed_mono (mkId : Nat → Int) (sendOk : Int → Bool) :
    ∀ (ts : List Int) (s : DigestPass), s.changed = true →
      (ts.foldl (fun s c => digest_chat_step mkId sendOk c s) s).changed = true := by
  intro ts
  induction ts with
  | nil => exact fun s h => h
  | cons d t ih =>
    intro s h
    simp only [List.foldl_cons]
    exact ih _ (digest_chat_step_changed_mono mkId sendOk d s h)

theorem update_fold_changed_false (mkId : Nat → Int) (sendOk : Int → Bool) :
    ∀ (ts : List Int) (s : DigestPass),
      (ts.foldl (fun s c => digest_chat_step mkId sendOk c s) s).changed = false →
      (ts.foldl (fun s c => digest_chat_step mkId sendOk c s) s).digest_message_ids =
        s.digest_message_ids := by
  intro ts
  induction ts with
  | nil => exact fun s _ => rfl
  | cons d t ih =>
    intro s h
    simp only [List.foldl_cons] at h ⊢
    have h1 : (digest_chat_step mkId sendOk d s).changed = false := by
      cases hch : (digest_chat_step mkId sendOk d s).changed with
      | false => rfl
      | true =>
        rw [update_fold_changed_mono mkId sendOk t _ hch] at h
        cases h
    rw [ih _ h, digest_chat_step_changed_false mkId sendOk d s h1]

theorem update_fold_covers (mkId : Nat → Int) (sendOk : Int → Bool) :
    ∀ (ts : List Int) (s : DigestPass), (∀ c ∈ ts, sendOk c = true) →
      (∀ i, mkId i ≠ 0) → ∀ c ∈ ts,
      ∃ v, lookupA
          ((ts.foldl (fun s c => digest_chat_step mkId sendOk c s) s)).digest_message_ids c =
        some v ∧ v ≠ 0 := by
  intro ts
  induction ts with
  | nil => exact fun s _ _ c hc => absurd hc (List.not_mem_nil c)
  | cons d t ih =>
    intro s hok hpos c hc
    simp only [List.foldl_cons]
    rcases List.mem_cons.mp hc with hcd | hct
    · subst hcd
      obtain ⟨v, hv, hv0⟩ := digest_chat_step_covers mkId sendOk c s
        (hok c (List.mem_cons_self c t)) hpos
      exact ⟨v, update_fold_preserve mkId sendOk t _ c v hv hv0, hv0⟩
    · exact ih _ (fun x hx => hok x (List.mem_cons_of_mem d hx)) hpos c hct

theorem update_fold_sent (mkId : Nat → Int) (sendOk : Int → Bool) :
    ∀ (ts : List Int) (s : DigestPass), (∀ c ∈ ts, sendOk c = true) →
      (∀ i, mkId i ≠ 0) → ∀ c ∈ ts, lookupA s.digest_message_ids c = none →
      ∃ id, id ≠ 0 ∧
        lookupA
          ((ts.foldl (fun s c => digest_chat_step mkId sendOk c s) s)).digest_message_ids c =
          some id ∧
        DigestEvent.sent c id ∈
          (ts.foldl (fun s c => digest_chat_step mkId sendOk c s) s).events := by
  intro ts
  induction ts with
  | nil => exact fun s _ _ c hc => absurd hc (List.not_mem_nil c)
  | cons d t ih =>
    intro s hok hpos c hc hnone
    simp only [List.foldl_cons]
    by_cases hd : d = c
    · subst hd
      have hokd : sendOk d = true := hok d (List.mem_cons_self d t)
      have hstep : digest_chat_step mkId sendOk d s =
          { digest_message_ids := insertA s.digest_message_ids d (mkId s.next_id)
            next_id := s.next_id + 1
            changed := true
            events := s.events ++ [.sent d (mkId s.next_id)] } := by
        rw [digest_chat_step, hnone]
        simp [hokd]
      refine ⟨mkId s.next_id, hpos s.next_id, ?_, ?_⟩
      · apply update_fold_preserve mkId sendOk t _ d (mkId s.next_id) _ (hpos s.next_id)
        rw [hstep]
        exact lookupA_insertA_self _ _ _
      · obtain ⟨es, hes⟩ := update_fold_events mkId sendOk t (digest_chat_step mkId sendOk d s)
        rw [hes, hstep]
        simp
    · have hct : c ∈ t := by
        rcases List.mem_cons.mp hc with h | h
        · exact absurd h.symm hd
        · exact h
      have hnone' : lookupA (digest_chat_step mkId sendOk d s).digest_message_ids c = none := by
        rw [digest_chat_step_frame mkId sendOk d s c hd]
        exact hnone
      exact ih _ (fun x hx => hok x (List.mem_cons_of_mem d hx)) hpos c hct hnone'

theorem update_fold_stable (mkId : Nat → Int) (sendOk : Int → Bool) :
    ∀ (ts : List Int) (s : DigestPass),
      (∀ c ∈ ts, ∃ v, lookupA s.digest_message_ids c = some v ∧ v ≠ 0) →
      ts.foldl (fun s c => digest_chat_step mkId sendOk c s) s =
        { s with events := s.events ++
            ts.map fun c => DigestEvent.edited c ((lookupA s.digest_message_ids c).getD 0) } := by
  intro ts
  induction ts with
  | nil =>
    intro s _
    cases s
    simp
  | cons d t ih =>
    intro s h
    obtain ⟨v, hv, hv0⟩ := h d (List.mem_cons_self d t)
    simp only [List.foldl_cons]
    rw [digest_chat_step_stable mkId sendOk d s v hv hv0]
    rw [ih { s with events := s.events ++ [DigestEvent.edited d v] }
      (fun x hx => h x (List.mem_cons_of_mem d hx))]
    simp [hv, List.append_assoc]

/-! ### Claim C2: digest at-most-one -/

/-- C2: starting from a freshly created binding (empty digest map), with
every send succeeding (the platform returns nonzero message ids) and no new
channel messages, the first refresh sends one message per recipient and
records its id, and every later refresh leaves the id map unchanged, reports
no change, and performs exactly one edit per recipient with the stored id —
edits, never creates. -/
theorem digest_refresh_at_most_one (mkId : Nat → Int) (hpos : ∀ i, mkId i ≠ 0)
    (targets : List Int) (c : Int) (hc : c ∈ targets) :
    ∃ id, id ≠ 0 ∧
      lookupA (digest_refresh_iter mkId targets 1).digest_message_ids c = some id ∧
      DigestEvent.sent c id ∈ (digest_refresh_iter mkId targets 1).events ∧
      ∀ n, 1 ≤ n →
        (digest_refresh_iter mkId targets n).digest_message_ids =
          (digest_refresh_iter mkId targets 1).digest_message_ids ∧
        lookupA (digest_refresh_iter mkId targets n).digest_message_ids c = some id ∧
        (2 ≤ n →
          (digest_refresh_iter mkId targets n).changed = false ∧
          (digest_refresh_iter mkId targets n).events =
            (targets.map fun t => DigestEvent.edited t
              ((lookupA (digest_refresh_iter mkId targets 1).digest_message_ids t).getD 0)) ∧
          DigestEvent.edited c id ∈ (digest_refresh_iter mkId targets n).events) := by
  have hT : ∀ x ∈ targets, (fun _ : Int => true) x = true := fun _ _ => rfl
  have h1def : digest_refresh_iter mkId targets 1 =
      targets.foldl (fun s c => digest_chat_step mkId (fun _ => true) c s)
        { digest_message_ids := [], next_id := 0, changed := false, events := [] } := rfl
  obtain ⟨id, hid0, hlook1, hsent1⟩ :=
    update_fold_sent mkId (fun _ => true) targets
      { digest_message_ids := [], next_id := 0, changed := false, events := [] }
      hT hpos c hc rfl
  rw [← h1def] at hlook1 hsent1
  have hcov : ∀ x ∈ targets,
      ∃ v, lookupA (digest_refresh_iter mkId targets 1).digest_message_ids x = some v ∧
        v ≠ 0 := by
    intro x hx
    have hfold := update_fold_covers mkId (fun _ => true) targets
      { digest_message_ids := [], next_id := 0, changed := false, events := [] }
      hT hpos x hx
    rw [← h1def] at hfold
    exact hfold
  have hstab : ∀ n, 1 ≤ n →
      (digest_refresh_iter mkId targets n).digest_message_ids =
        (digest_refresh_iter mkId targets 1).digest_message_ids ∧
      (digest_refresh_iter mkId targets n).next_id =
        (digest_refresh_iter mkId targets 1).next_id ∧
      (2 ≤ n →
        (digest_refresh_iter mkId targets n).changed = false ∧
        (digest_refresh_iter mkId targets n).events =
          (targets.map fun t => DigestEvent.edited t
            ((lookupA (digest_refresh_iter mkId targets 1).digest_message_ids t).getD 0))) := by
    intro n hn
    induction n with
    | zero => omega
    | succ m ih =>
      by_cases hm : 1 ≤ m
      · obtain ⟨hmap, hnid, -⟩ := ih hm
        have hdef : digest_refresh_iter mkId targets (m + 1) =
            targets.foldl (fun s c => digest_chat_step mkId (fun _ => true) c s)
              { digest_message_ids := (digest_refresh_iter mkId targets m).digest_message_ids,
                next_id := (digest_refresh_iter mkId targets m).next_id,
                changed := false, events := [] } := rfl
        rw [hdef, hmap, hnid]
        rw [update_fold_stable mkId (fun _ => true) targets
          { digest_message_ids := (digest_refresh_iter mkId targets 1).digest_message_ids,
            next_id := (digest_refresh_iter mkId targets 1).next_id,
            changed := false, events := [] }
          (fun x hx => hcov x hx)]
        refine ⟨rfl, rfl, fun _ => ⟨rfl, ?_⟩⟩
        simp
      · have hm0 : m = 0 := by omega
        subst hm0
        exact ⟨rfl, rfl, fun h2 => absurd h2 (by omega)⟩
  refine ⟨id, hid0, hlook1, hsent1, ?_⟩
  intro n hn
  obtain ⟨hmap, -, hrest⟩ := hstab n hn
  refine ⟨hmap, by rw [hmap]; exact hlook1, ?_⟩
  intro h2
  obtain ⟨hch, hev⟩ := hrest h2
  refine ⟨hch, hev, ?_⟩
  rw [hev]
  refine List.mem_map.mpr ⟨c, hc, ?_⟩
  rw [hlook1]
  rfl

/-- Witness for C2: one recipient chat 555, fresh ids `i + 1`. -/
theorem digest_refresh_at_most_one_witness :
    ∃ id, id ≠ 0 ∧
      lookupA (digest_refresh_iter (fun i => (i : Int) + 1) [555] 1).digest_message_ids 555 =
        some id ∧
      DigestEvent.sent 555 id ∈ (digest_refresh_iter (fun i => (i : Int) + 1) [555] 1).events ∧
      ∀ n, 1 ≤ n →
        (digest_refresh_iter (fun i => (i : Int) + 1) [555] n).digest_message_ids =
          (digest_refresh_iter (fun i => (i : Int) + 1) [555] 1).digest_message_ids ∧
        lookupA (digest_refresh_iter (fun i => (i : Int) + 1) [555] n).digest_message_ids
          555 = some id ∧
        (2 ≤ n →
          (digest_refresh_iter (fun i => (i : Int) + 1) [555] n).changed = false ∧
          (digest_refresh_iter (fun i => (i : Int) + 1) [555] n).events =
            ([555].map fun t => DigestEvent.edited t
              ((lookupA (digest_refresh_iter (fun i => (i : Int) + 1) [555]
                1).digest_message_ids t).getD 0)) ∧
          DigestEvent.edited 555 id ∈
            (digest_refresh_iter (fun i => (i : Int) + 1) [555] n).events) :=
  digest_refresh_at_most_one (fun i => (i : Int) + 1)
    (fun i => by show (i : Int) + 1 ≠ 0; omega) [555] 555 (by decide)

/-! ### Claim C10: refresh frame property -/

/-- C10 counterexample: an existing entry whose recorded message id is `0`
(Python-falsy) is rewritten by a refresh — the code re-sends and overwrites
it, so "the entry after refresh equals the entry before" fails. -/
theorem digest_refresh_rewrites_zero_entry :
    lookupA [((555 : Int), (0 : Int))] 555 = some 0 ∧
    lookupA (update_ticket_digest (fun i => (i : Int) + 100) (fun _ => true) [555]
        [(555, 0)] 0).digest_message_ids 555 = some 100 ∧
    ¬lookupA (update_ticket_digest (fun i => (i : Int) + 100) (fun _ => true) [555]
        [(555, 0)] 0).digest_message_ids 555 = some 0 ∧
    (update_ticket_digest (fun i => (i : Int) + 100) (fun _ => true) [555]
        [(555, 0)] 0).changed = true :=
  ⟨by decide, by decide, by decide, by decide⟩

/-- C10 (amended): a digest refresh never removes or rewrites an entry that
holds a nonzero message id (a stored id of 0 is Python-falsy, treated as
missing, and overwritten by a fresh send); recipients outside the target set
are untouched; and when the refresh recorded nothing new (`changed` false)
the in-memory map is exactly the old map and the binding is not re-persisted
(the stored copy is byte-identical). -/
theorem digest_refresh_frame (mkId : Nat → Int) (sendOk : Int → Bool) (targets : List Int)
    (m disk : List (Int × Int)) (ctr : Nat) :
    (∀ c v, lookupA m c = some v → v ≠ 0 →
      lookupA (update_ticket_digest_persist mkId sendOk targets m disk ctr).mem c = some v) ∧
    (∀ c, c ∉ targets →
      lookupA (update_ticket_digest_persist mkId sendOk targets m disk ctr).mem c =
        lookupA m c) ∧
    ((update_ticket_digest_persist mkId sendOk targets m disk ctr).changed = false →
      (update_ticket_digest_persist mkId sendOk targets m disk ctr).mem = m ∧
      (update_ticket_digest_persist mkId sendOk targets m disk ctr).disk = disk) := by
  refine ⟨?_, ?_, ?_⟩
  · intro c v hv hv0
    exact update_fold_preserve mkId sendOk targets
      { digest_message_ids := m, next_id := ctr, changed := false, events := [] } c v hv hv0
  · intro c hcn
    exact update_fold_frame mkId sendOk targets
      { digest_message_ids := m, next_id := ctr, changed := false, events := [] } c hcn
  · intro hch
    have hch' : (update_ticket_digest mkId sendOk targets m ctr).changed = false := hch
    have hmem : (update_ticket_digest_persist mkId sendOk targets m disk ctr).mem = m :=
      update_fold_changed_false mkId sendOk targets
        { digest_message_ids := m, next_id := ctr, changed := false, events := [] } hch'
    refine ⟨hmem, ?_⟩
    show (if (update_ticket_digest mkId sendOk targets m ctr).changed then
      (update_ticket_digest mkId sendOk targets m ctr).digest_message_ids else disk) = disk
    rw [hch']
    rfl

/-- Witness for C10: one unreachable recipient (send fails), an unrelated
stored entry `(5, 3)` survives and the persisted copy is untouched. -/
theorem digest_refresh_frame_witness :
    lookupA (update_ticket_digest_persist (fun i => (i : Int) + 1) (fun _ => false) [7]
        [(5, 3)] [(5, 3)] 0).mem 5 = some 3 ∧
    (update_ticket_digest_persist (fun i => (i : Int) + 1) (fun _ => false) [7]
        [(5, 3)] [(5, 3)] 0).disk = [(5, 3)] :=
  ⟨(digest_refresh_frame (fun i => (i : Int) + 1) (fun _ => false) [7]
      [(5, 3)] [(5, 3)] 0).1 5 3 (by decide) (by decide),
   ((digest_refresh_frame (fun i => (i : Int) + 1) (fun _ => false) [7]
      [(5, 3)] [(5, 3)] 0).2.2 (by decide)).2⟩

/-! ### Close path lemmas -/

theorem lookupA_removeA_self {α : Type} (m : List (Int × α)) (k : Int) :
    lookupA (removeA m k) k = none := by
  induction m with
  | nil => rfl
  | cons p t ih =>
    rw [removeA, List.filter_cons]
    by_cases h : p.1 = k
    · simp only [h, beq_self_eq_true, Bool.not_true, if_false, Bool.false_eq_true]
      exact ih
    · simp only [beq_eq_false_iff_ne, ne_eq, h, not_false_iff, Bool.not_eq_true',
        if_true, Bool.not_false]
      rw [lookupA]
      simp only [h, if_false]
      exact ih

theorem close_ticket_store (tg_admin_ids : Finset Int) (R : Registry)
    (store : List (Int × TicketBinding)) (channelId : Int) (channelName : String)
    (binding : TicketBinding) (closedByName : String) (archive_files : List String) :
    (close_ticket tg_admin_ids R store channelId channelName binding closedByName
      archive_files).1 = removeA store channelId := rfl

theorem close_ticket_mem (tg_admin_ids : Finset Int) (R : Registry)
    (store : List (Int × TicketBinding)) (channelId : Int) (channelName : String)
    (binding : TicketBinding) (closedByName : String) (archive_files : List String)
    (chat : Int)
    (hchat : chat ∈
      notification_targets tg_admin_ids R binding.ticket_type binding.opener_discord_id) :
    CloseEvent.tgText chat
        ("🔒 Тикет закрыт: #" ++ channelName ++ " (закрыл: " ++ closedByName ++ ")") ∈
      (close_ticket tg_admin_ids R store channelId channelName binding closedByName
        archive_files).2 ∧
    (∀ f ∈ archive_files, CloseEvent.tgDocument chat f ∈
      (close_ticket tg_admin_ids R store channelId channelName binding closedByName
        archive_files).2) ∧
    CloseEvent.tgRating chat ∈
      (close_ticket tg_admin_ids R store channelId channelName binding closedByName
        archive_files).2 := by
  simp only [close_ticket]
  refine ⟨?_, ?_, ?_⟩
  · exact Finset.mem_union_left _ (Finset.mem_union_left _ (Finset.mem_image_of_mem _ hchat))
  · intro f hf
    refine Finset.mem_union_left _ (Finset.mem_union_right _ ?_)
    refine Finset.mem_biUnion.mpr ⟨chat, hchat, ?_⟩
    exact Finset.mem_union_left _ (Finset.mem_image_of_mem _ (List.mem_toFinset.mpr hf))
  · refine Finset.mem_union_left _ (Finset.mem_union_right _ ?_)
    refine Finset.mem_biUnion.mpr ⟨chat, hchat, ?_⟩
    exact Finset.mem_union_right _ (Finset.mem_singleton_self _)

/-! ### Claim C4: end-to-end close scenario B -/

/-- C4: closing the ticket of channel 100 whose opener (discord id 1) is
linked to chat 555, with chat 777 the only admin-role chat and the static
admin set empty, delivers the closure notice and every archived artifact to
both 555 and 777, and afterwards the store holds no binding for the
channel. -/
theorem close_ticket_scenario_b (archive_files : List String) (f : String)
    (hf : f ∈ archive_files) :
    CloseEvent.tgText 555 ("🔒 Тикет закрыт: #" ++ "order-bob" ++ " (закрыл: " ++ "mod" ++ ")") ∈
      (close_ticket ∅ c4registry [(100, c4binding)] 100 "order-bob" c4binding "mod"
        archive_files).2 ∧
    CloseEvent.tgText 777 ("🔒 Тикет закрыт: #" ++ "order-bob" ++ " (закрыл: " ++ "mod" ++ ")") ∈
      (close_ticket ∅ c4registry [(100, c4binding)] 100 "order-bob" c4binding "mod"
        archive_files).2 ∧
    CloseEvent.tgDocument 555 f ∈
      (close_ticket ∅ c4registry [(100, c4binding)] 100 "order-bob" c4binding "mod"
        archive_files).2 ∧
    CloseEvent.tgDocument 777 f ∈
      (close_ticket ∅ c4registry [(100, c4binding)] 100 "order-bob" c4binding "mod"
        archive_files).2 ∧
    lookupA (close_ticket ∅ c4registry [(100, c4binding)] 100 "order-bob" c4binding "mod"
      archive_files).1 100 = none := by
  have h555 : (555 : Int) ∈
      notification_targets ∅ c4registry c4binding.ticket_type c4binding.opener_discord_id := by
    decide
  have h777 : (777 : Int) ∈
      notification_targets ∅ c4registry c4binding.ticket_type c4binding.opener_discord_id := by
    decide
  obtain ⟨ht5, hd5, -⟩ := close_ticket_mem ∅ c4registry [(100, c4binding)] 100 "order-bob"
    c4binding "mod" archive_files 555 h555
  obtain ⟨ht7, hd7, -⟩ := close_ticket_mem ∅ c4registry [(100, c4binding)] 100 "order-bob"
    c4binding "mod" archive_files 777 h777
  refine ⟨ht5, ht7, hd5 f hf, hd7 f hf, ?_⟩
  rw [close_ticket_store]
  exact lookupA_removeA_self _ _

/-- Witness for C4: a one-artifact archive. -/
theorem close_ticket_scenario_b_witness :
    ("dialog.txt" ∈ ["dialog.txt"]) ∧
    (CloseEvent.tgText 555
        ("🔒 Тикет закрыт: #" ++ "order-bob" ++ " (закрыл: " ++ "mod" ++ ")") ∈
      (close_ticket ∅ c4registry [(100, c4binding)] 100 "order-bob" c4binding "mod"
        ["dialog.txt"]).2 ∧
    CloseEvent.tgText 777 ("🔒 Тикет закрыт: #" ++ "order-bob" ++ " (закрыл: " ++ "mod" ++ ")") ∈
      (close_ticket ∅ c4registry [(100, c4binding)] 100 "order-bob" c4binding "mod"
        ["dialog.txt"]).2 ∧
    CloseEvent.tgDocument 555 "dialog.txt" ∈
      (close_ticket ∅ c4registry [(100, c4binding)] 100 "order-bob" c4binding "mod"
        ["dialog.txt"]).2 ∧
    CloseEvent.tgDocument 777 "dialog.txt" ∈
      (close_ticket ∅ c4registry [(100, c4binding)] 100 "order-bob" c4binding "mod"
        ["dialog.txt"]).2 ∧
    lookupA (close_ticket ∅ c4registry [(100, c4binding)] 100 "order-bob" c4binding "mod"
      ["dialog.txt"]).1 100 = none) :=
  ⟨by decide, close_ticket_scenario_b ["dialog.txt"] "dialog.txt" (by decide)⟩

/-! ### Claim C5: close on a channel without a binding -/

/-- C5: invoking the close button on a channel with no ticket binding fails
on the not-found branch — the actor gets the failure acknowledgment
("Это не тикет-канал."), the store is returned unchanged, no notification,
archive or rating is sent, and no channel deletion is requested. -/
theorem close_button_not_found (tg_admin_ids : Finset Int) (R : Registry)
    (store : List (Int × TicketBinding)) (channelId : Int)
    (channelName closedByName : String) (archive_files : List String)
    (h : lookupA store channelId = none) :
    close_ticket_button tg_admin_ids R store channelId channelName closedByName
      archive_files = (store, ∅, CloseAck.notTicket) := by
  rw [close_ticket_button, h]

/-- Witness for C5: an empty ticket store. -/
theorem close_button_not_found_witness :
    close_ticket_button ∅ c4registry [] 1 "x" "mod" [] = ([], ∅, CloseAck.notTicket) :=
  close_button_not_found ∅ c4registry [] 1 "x" "mod" [] rfl

/-! ### Hex parsing lemmas -/

theorem hexDigitVal?_lt {c : Char} {d : Nat} (h : hexDigitVal? c = some d) : d < 16 := by
  rw [hexDigitVal?] at h
  split_ifs at h with h1 h2 h3
  · injection h with h'
    omega
  · injection h with h'
    omega
  · injection h with h'
    omega

theorem hexDigitVal?_hexDigitUpper : ∀ d, d < 16 → hexDigitVal? (hexDigitUpper d) = some d := by
  decide

theorem hexDigitUpper_ne_hash : ∀ d, d < 16 → ¬hexDigitUpper d = '#' := by
  decide

theorem parseHexChars?_le {cs : List Char} {v : Nat} (h : parseHexChars? cs = some v)
    (hlen : cs.length ≤ 2) : v < 256 := by
  match cs with
  | [] =>
    rw [parseHexChars?, if_pos rfl] at h
    cases h
  | [c] =>
    rw [parseHexChars?, if_neg (by simp)] at h
    rcases hd : hexDigitVal? c with _ | d
    · simp only [List.foldl_cons, List.foldl_nil, Option.some_bind, hd,
        Option.map_none'] at h
      cases h
    · simp only [List.foldl_cons, List.foldl_nil, Option.some_bind, hd,
        Option.map_some', Option.some.injEq] at h
      have := hexDigitVal?_lt hd
      omega
  | [c1, c2] =>
    rw [parseHexChars?, if_neg (by simp)] at h
    rcases hd1 : hexDigitVal? c1 with _ | d1
    · simp only [List.foldl_cons, List.foldl_nil, Option.some_bind, hd1,
        Option.map_none', Option.none_bind] at h
      cases h
    · rcases hd2 : hexDigitVal? c2 with _ | d2
      · simp only [List.foldl_cons, List.foldl_nil, Option.some_bind, hd1, hd2,
          Option.map_some', Option.map_none'] at h
        cases h
      · simp only [List.foldl_cons, List.foldl_nil, Option.some_bind, hd1, hd2,
          Option.map_some', Option.some.injEq] at h
        have hb1 := hexDigitVal?_lt hd1
        have hb2 := hexDigitVal?_lt hd2
        omega
  | c1 :: c2 :: c3 :: t => simp at hlen

theorem hexChannels?_lt {s : String} {r g b : Nat} (h : hexChannels? s = some (r, g, b)) :
    r < 256 ∧ g < 256 ∧ b < 256 := by
  rw [hexChannels?] at h
  rcases h1 : parseHexChars? ((pyStripHash s).data.take 2) with _ | r'
  · rw [h1] at h
    cases h
  · rw [h1] at h
    rcases h2 : parseHexChars? (((pyStripHash s).data.drop 2).take 2) with _ | g'
    · rw [h2] at h
      cases h
    · rw [h2] at h
      rcases h3 : parseHexChars? (((pyStripHash s).data.drop 4).take 2) with _ | b'
      · rw [h3] at h
        cases h
      · rw [h3] at h
        rw [Option.some.injEq, Prod.mk.injEq, Prod.mk.injEq] at h
        obtain ⟨hr', hg', hb'⟩ := h
        subst hr'
        subst hg'
        subst hb'
        refine ⟨parseHexChars?_le h1 ?_, parseHexChars?_le h2 ?_, parseHexChars?_le h3 ?_⟩
          <;> simp [List.length_take]
  
theorem parseHexChars?_toHex6 (r g b : Nat) (hr : r < 256) (hg : g < 256) (hb : b < 256) :
    parseHexChars? (toHex2 r ++ toHex2 g ++ toHex2 b).data =
      some (r * 65536 + g * 256 + b) := by
  have e1 := hexDigitVal?_hexDigitUpper (r / 16) (by omega)
  have e2 := hexDigitVal?_hexDigitUpper (r % 16) (by omega)
  have e3 := hexDigitVal?_hexDigitUpper (g / 16) (by omega)
  have e4 := hexDigitVal?_hexDigitUpper (g % 16) (by omega)
  have e5 := hexDigitVal?_hexDigitUpper (b / 16) (by omega)
  have e6 := hexDigitVal?_hexDigitUpper (b % 16) (by omega)
  have hdata : (toHex2 r ++ toHex2 g ++ toHex2 b).data =
      [hexDigitUpper (r / 16), hexDigitUpper (r % 16), hexDigitUpper (g / 16),
       hexDigitUpper (g % 16), hexDigitUpper (b / 16), hexDigitUpper (b % 16)] := rfl
  rw [parseHexChars?, hdata]
  rw [if_neg (by simp)]
  simp only [List.foldl_cons, List.foldl_nil, Option.some_bind, e1, e2, e3, e4, e5, e6,
    Option.map_some']
  refine congrArg some ?_
  omega

theorem pyStripHash_eq_self {s : String} (h : ∀ c ∈ s.data, ¬c = '#') :
    pyStripHash s = s := by
  rw [pyStripHash]
  have h1 : s.data.dropWhile (fun c => decide (c = '#')) = s.data := by
    cases hd : s.data with
    | nil => rfl
    | cons a t =>
      rw [List.dropWhile_cons]
      have ha : decide (a = '#') = false :=
        decide_eq_false (h a (hd ▸ List.mem_cons_self a t))
      rw [ha]
      simp
  rw [h1]
  have h2 : s.data.reverse.dropWhile (fun c => decide (c = '#')) = s.data.reverse := by
    cases hd : s.data.reverse with
    | nil => rfl
    | cons a t =>
      rw [List.dropWhile_cons]
      have ha : a ∈ s.data := by
        rw [← List.mem_reverse, hd]
        exact List.mem_cons_self a t
      have ha' : decide (a = '#') = false := decide_eq_false (h a ha)
      rw [ha']
      simp
  rw [h2, List.reverse_reverse]

theorem embeds_from_post?_color {p : SavedPost} {l : List EmbedModel} {base : String}
    {col : Nat}
    (hbase : (if p.auto_gradient then
        hex_midpoint? p.gradient_start_hex p.gradient_end_hex
      else some p.color_hex) = some base)
    (hcol : parseHexChars? (pyStripHash base).data = some col)
    (hl : embeds_from_post? p = some l) :
    ∃ e rest, l = e :: rest ∧ e.color = col := by
  rw [embeds_from_post?] at hl
  simp only [hbase, hcol] at hl
  rcases hx : extra_embeds? p.extra_blocks with _ | extras
  · rw [hx] at hl
    cases hl
  · rw [hx] at hl
    simp only [Option.some.injEq] at hl
    refine ⟨_, extras, hl.symm, ?_⟩
    split_ifs <;> rfl

/-! ### Claim C8: gradient midpoint color -/

/-- C8: when gradient mode is on, the rendered main block's color is the
per-channel integer midpoint of the gradient start and end hex colors,
overriding `color_hex`; when gradient mode is off, `color_hex` itself is
parsed and used. -/
theorem embeds_gradient_midpoint (p : SavedPost) (l : List EmbedModel)
    (hl : embeds_from_post? p = some l) :
    (∀ r1 g1 b1 r2 g2 b2 : Nat, p.auto_gradient = true →
      hexChannels? p.gradient_start_hex = some (r1, g1, b1) →
      hexChannels? p.gradient_end_hex = some (r2, g2, b2) →
      ∃ e rest, l = e :: rest ∧
        e.color = ((r1 + r2) / 2) * 65536 + ((g1 + g2) / 2) * 256 + (b1 + b2) / 2) ∧
    (∀ v : Nat, p.auto_gradient = false →
      parseHexChars? (pyStripHash p.color_hex).data = some v →
      ∃ e rest, l = e :: rest ∧ e.color = v) := by
  constructor
  · intro r1 g1 b1 r2 g2 b2 hg h1 h2
    obtain ⟨hr1, hg1, hb1⟩ := hexChannels?_lt h1
    obtain ⟨hr2, hg2, hb2⟩ := hexChannels?_lt h2
    have hbase : (if p.auto_gradient then
        hex_midpoint? p.gradient_start_hex p.gradient_end_hex
      else some p.color_hex) =
        some (toHex2 ((r1 + r2) / 2) ++ toHex2 ((g1 + g2) / 2) ++ toHex2 ((b1 + b2) / 2)) := by
      rw [if_pos hg, hex_midpoint?]
      simp only [h1, h2]
    have hdata6 : (toHex2 ((r1 + r2) / 2) ++ toHex2 ((g1 + g2) / 2) ++
        toHex2 ((b1 + b2) / 2)).data =
        [hexDigitUpper (((r1 + r2) / 2) / 16), hexDigitUpper (((r1 + r2) / 2) % 16),
         hexDigitUpper (((g1 + g2) / 2) / 16), hexDigitUpper (((g1 + g2) / 2) % 16),
         hexDigitUpper (((b1 + b2) / 2) / 16), hexDigitUpper (((b1 + b2) / 2) % 16)] := rfl
    have hnohash : ∀ c ∈ (toHex2 ((r1 + r2) / 2) ++ toHex2 ((g1 + g2) / 2) ++
        toHex2 ((b1 + b2) / 2)).data, ¬c = '#' := by
      intro c hc
      rw [hdata6] at hc
      simp only [List.mem_cons, List.not_mem_nil, or_false] at hc
      rcases hc with rfl | rfl | rfl | rfl | rfl | rfl <;>
        exact hexDigitUpper_ne_hash _ (by omega)
    have hcol : parseHexChars? (pyStripHash (toHex2 ((r1 + r2) / 2) ++
        toHex2 ((g1 + g2) / 2) ++ toHex2 ((b1 + b2) / 2))).data =
        some (((r1 + r2) / 2) * 65536 + ((g1 + g2) / 2) * 256 + (b1 + b2) / 2) := by
      rw [pyStripHash_eq_self hnohash]
      exact parseHexChars?_toHex6 _ _ _ (by omega) (by omega) (by omega)
    exact embeds_from_post?_color hbase hcol hl
  · intro v hg hv
    have hbase : (if p.auto_gradient then
        hex_midpoint? p.gradient_start_hex p.gradient_end_hex
      else some p.color_hex) = some p.color_hex := by
      rw [if_neg]
      rw [hg]
      simp
    exact embeds_from_post?_color hbase hv hl

/-- Witness for C8: the default gradient `2ECC71 → 5865F2` blends to
`4398B1` (4430001). -/
theorem embeds_gradient_midpoint_witness :
    embeds_from_post? c8post =
      some [{ title := "", description := "", color := 4430001, image_url := none }] ∧
    ∃ e rest,
      [({ title := "", description := "", color := 4430001, image_url := none } :
        EmbedModel)] = e :: rest ∧
      e.color = ((46 + 88) / 2) * 65536 + ((204 + 101) / 2) * 256 + (113 + 242) / 2 :=
  ⟨by decide,
   (embeds_gradient_midpoint c8post
      [{ title := "", description := "", color := 4430001, image_url := none }]
      (by decide)).1 46 204 113 88 101 242 rfl (by decide) (by decide)⟩

/-! ### Claim C9: default ORDER/SUPPORT buttons -/

/-- C9: a post whose materialized form has no panel buttons (structured or
tag-derived) gets exactly two default view buttons on row 0 — an
order-action button from `order_label`/`order_emoji`/`order_style` and a
support-action button from the `support_*` fields (with the view's
label-or-"Action" and emoji-or-none fallbacks) — and a post flagged as a
ticket panel is still published with the interactive view. -/
theorem ticket_open_view_defaults (post : SavedPost)
    (h : (materialize_post_for_send post).panel_buttons = []) :
    ticket_open_view_items (materialize_post_for_send post) =
      [ViewItem.action (if post.order_label = "" then "Action" else post.order_label)
        (if post.order_emoji = "" then none else some post.order_emoji)
        (style_from_name post.order_style) "order" ("panel:" ++ post.name ++ ":" ++ "0") 0,
       ViewItem.action (if post.support_label = "" then "Action" else post.support_label)
        (if post.support_emoji = "" then none else some post.support_emoji)
        (style_from_name post.support_style) "support" ("panel:" ++ post.name ++ ":" ++ "1") 0]
    ∧ (post.is_ticket_panel = true → publish_post_uses_panel post = true) := by
  constructor
  · have ho : pyLower (pyStrip (if ("order" : String) = "" then "none" else "order")) =
        "order" := by decide
    have hs : pyLower (pyStrip (if ("support" : String) = "" then "none" else "support")) =
        "support" := by decide
    rw [ticket_open_view_items, h]
    simp only [materialize_post_for_send, List.isEmpty_nil, if_true, sortByRow,
      List.foldr_cons, List.foldr_nil, insertByRow, le_refl, if_true, List.enum,
      List.enumFrom, List.filterMap_cons, List.filterMap_nil, ho, hs]
    simp [pyTruthy, show ("order" : String) ≠ "url" from by decide,
      show ("support" : String) ≠ "url" from by decide]
    rw [show toString (0 : Nat) = "0" from by decide, show toString (1 : Nat) = "1" from by decide]
    exact ⟨rfl, rfl⟩
  · intro hp
    rw [publish_post_uses_panel]
    simp [materialize_post_for_send, hp]

/-- Witness for C9: the ticket-panel post `c9post` with zero configured
buttons renders the two default buttons. -/
theorem ticket_open_view_defaults_witness :
    (materialize_post_for_send c9post).panel_buttons = [] ∧
    ticket_open_view_items (materialize_post_for_send c9post) =
      [ViewItem.action "ORDER" (some "🧾") ButtonStyle.success "order" "panel:panel:0" 0,
       ViewItem.action "SUPPORT" (some "🛟") ButtonStyle.primary "support" "panel:panel:1" 0] ∧
    publish_post_uses_panel c9post = true := by
  refine ⟨by decide, ?_, (ticket_open_view_defaults c9post (by decide)).2 rfl⟩
  rw [(ticket_open_view_defaults c9post (by decide)).1]
  decide
